import Mathlib

/-!
Verification development for the Shadowrun RPG session core of
`src/backend/app.py` (wren-terminal): a shallow embedding of the SQLite-backed
data model (tables `rpg_sessions`, `session_users`, `scene_logs`,
`scene_info`, `entities` from `init_db`, app.py lines 41 to 136) and of the
session, scene-log, scene-state, dice and streaming operations, together with
theorems settling the frozen claims C1 to C10.

Conventions of the embedding:
- timestamps (`datetime.now()`, SQLite `CURRENT_TIMESTAMP`) are `Nat` ticks
  passed in as a `now` parameter;
- a SQLite table is a `List` of row structures; `INSERT` appends at the end,
  `UPDATE` maps over the list, a `PRIMARY KEY` violation is the explicit
  error branch of the inserting operation;
- `random.randint` is modelled by `pyRandint` over an externally supplied
  stream of raw draws, so that its range contract is provable;
- a transaction (one connection, `commit` at the end, `rollback` in the
  `except` branch) is modelled by returning the original state on the error
  path and the fully-updated state on the success path.
-/

namespace Wren

/-- Lower-cases a string, as Python `str.lower` does for ASCII text. -/
def pyLower (s : String) : String := String.mk (s.toList.map Char.toLower)

/-- Strips whitespace from both ends, as Python `str.strip()`. -/
def pyStrip (s : String) : String :=
  String.mk (((s.toList.dropWhile Char.isWhitespace).reverse.dropWhile Char.isWhitespace).reverse)

/-- Strips trailing question marks, as Python `str.rstrip("?")`. -/
def pyRstripQ (s : String) : String :=
  String.mk ((s.toList.reverse.dropWhile (fun c => c == '?')).reverse)

/-- Python substring containment `needle in hay` on character lists; the
empty needle is contained in everything, as in Python. -/
def py_in : List Char → List Char → Bool
  | needle, [] => needle.isEmpty
  | needle, c :: cs => needle.isPrefixOf (c :: cs) || py_in needle cs

/-- Python substring containment on strings. -/
def py_in_str (needle hay : String) : Bool := py_in needle.toList hay.toList

/-- Python `"c" in s` for a single character. -/
def py_char_in (c : Char) (s : String) : Bool := s.toList.contains c

/-- Python `str.isdigit` for ASCII: nonempty and all digits. -/
def pyIsDigit (s : String) : Bool := !s.toList.isEmpty && s.toList.all Char.isDigit

/-- Python `str.startswith`. -/
def py_startswith (pre s : String) : Bool := pre.toList.isPrefixOf s.toList

/-- Python `s.split(c)` for a single separator character, on character
lists: always at least one piece, empty pieces kept. -/
def splitOnChar (c : Char) : List Char → List (List Char)
  | [] => [[]]
  | x :: xs =>
    let r := splitOnChar c xs
    if x == c then [] :: r
    else match r with
      | [] => [[x]]
      | y :: ys => (x :: y) :: ys

/-- Python `s.split(c)` on strings. -/
def py_split_char (c : Char) (s : String) : List String :=
  (splitOnChar c s.toList).map String.mk

/-- Python `int(s)` for a string of ASCII digits. -/
def pyParseNat (s : String) : Nat :=
  s.toList.foldl (fun acc c => acc * 10 + (c.toNat - 48)) 0

/-- Helper for `py_split_ws`: consumes the character list, accumulating the
current word in reverse. -/
def splitWsAux : List Char → List Char → List String
  | [], cur => if cur.isEmpty then [] else [String.mk cur.reverse]
  | c :: cs, cur =>
    if c.isWhitespace then
      if cur.isEmpty then splitWsAux cs [] else String.mk cur.reverse :: splitWsAux cs []
    else splitWsAux cs (c :: cur)

/-- Python `str.split()` with no argument: split on whitespace runs,
dropping empty pieces. -/
def py_split_ws (s : String) : List String := splitWsAux s.toList []

/-- Python `" ".join(parts)`. -/
def pyJoinSpace : List String → String
  | [] => ""
  | [s] => s
  | s :: rest => s ++ " " ++ pyJoinSpace rest

/-- Python slice `s[-4:]`: the last four characters (the whole string when
shorter). -/
def str_last4 (s : String) : String := String.mk (s.toList.drop (s.toList.length - 4))

/-- Python `a or b` for an optional string default: `None` and the empty
string are both falsy, so either yields the default. -/
def py_or_str (s : Option String) (d : String) : String :=
  match s with
  | none => d
  | some v => if v == "" then d else v

/-- Rows of the `rpg_sessions` table (app.py lines 59 to 70). -/
structure SessionRow where
  session_id : String
  name : String
  created_by : String
  created_at : Nat
  last_active : Nat
  is_active : Bool
  theme : String
  meta_info : String
deriving Repr, DecidableEq

/-- Rows of the `session_users` table (app.py lines 73 to 83). -/
structure SessionUserRow where
  session_id : String
  user_id : String
  role : String
  character_name : String
  joined_at : Nat
deriving Repr, DecidableEq

/-- Rows of the `scene_logs` table (app.py lines 86 to 99). -/
structure SceneLogRow where
  session_id : String
  log_id : Nat
  user_id : String
  speaker : String
  content : String
  command_type : Option String
  timestamp : Nat
  is_gm_override : Bool
deriving Repr, DecidableEq

/-- Rows of the `scene_info` table (app.py lines 121 to 132); the
`current_scene_number` column has SQLite default 1. -/
structure SceneInfoRow where
  session_id : String
  location : String
  goal : String
  opposition : String
  magical_conditions : String
  current_scene_number : Nat
  last_updated : Nat
deriving Repr, DecidableEq

/-- Rows of the `entities` table (app.py lines 102 to 118); `meta_data` is
nullable and never written by the summon path. -/
structure EntityRow where
  session_id : String
  entity_id : String
  name : String
  type : String
  status : String
  description : String
  is_active : Bool
  created_by : String
  created_at : Nat
  last_updated : Nat
  meta_data : Option String
deriving Repr, DecidableEq

/-- The whole SQLite database `wren.db`, restricted to the five RPG tables
the claims concern. -/
structure DB where
  rpg_sessions : List SessionRow
  session_users : List SessionUserRow
  scene_logs : List SceneLogRow
  scene_info : List SceneInfoRow
  entities : List EntityRow
deriving Repr, DecidableEq

/-- Database with all five tables empty. -/
def emptyDB : DB := ⟨[], [], [], [], []⟩

/-- Embeds `UPDATE rpg_sessions SET last_active = ? WHERE session_id = ?`. -/
def update_last_active (db : DB) (session_id : String) (now : Nat) : DB :=
  { db with
    rpg_sessions := db.rpg_sessions.map
      (fun r => if r.session_id == session_id then { r with last_active := now } else r) }

@[simp] theorem scene_logs_update_last_active (db : DB) (sid : String) (now : Nat) :
    (update_last_active db sid now).scene_logs = db.scene_logs := rfl

@[simp] theorem scene_info_update_last_active (db : DB) (sid : String) (now : Nat) :
    (update_last_active db sid now).scene_info = db.scene_info := rfl

@[simp] theorem session_users_update_last_active (db : DB) (sid : String) (now : Nat) :
    (update_last_active db sid now).session_users = db.session_users := rfl

@[simp] theorem entities_update_last_active (db : DB) (sid : String) (now : Nat) :
    (update_last_active db sid now).entities = db.entities := rfl

/-- Sequence numbers (`log_id`) of all `scene_logs` rows of one session, in
table order; the multiset `SELECT log_id FROM scene_logs WHERE session_id = ?`
ranges over. -/
def session_seqs (db : DB) (session_id : String) : List Nat :=
  (db.scene_logs.filter (fun r => r.session_id == session_id)).map (fun r => r.log_id)

/-- Maximum of a list of naturals, 0 when empty. -/
def list_max (l : List Nat) : Nat := l.foldr max 0

theorem le_list_max {l : List Nat} {x : Nat} (h : x ∈ l) : x ≤ list_max l := by
  induction l with
  | nil => cases h
  | cons a t ih =>
    rcases List.mem_cons.mp h with h | h
    · subst h; exact Nat.le_max_left _ _
    · exact Nat.le_trans (ih h) (Nat.le_max_right _ _)

theorem list_max_le {l : List Nat} {b : Nat} (h : ∀ x ∈ l, x ≤ b) : list_max l ≤ b := by
  induction l with
  | nil => exact Nat.zero_le b
  | cons a t ih =>
    exact Nat.max_le.mpr ⟨h a (List.mem_cons_self a t), ih (fun x hx => h x (List.mem_cons_of_mem a hx))⟩

/-- Embeds `SELECT MAX(log_id) FROM scene_logs WHERE session_id = ?`: `none`
is the SQL NULL returned on an empty table (app.py lines 972 to 973). -/
def max_log_id (db : DB) (session_id : String) : Option Nat :=
  match session_seqs db session_id with
  | [] => none
  | l => some (list_max l)

/-- Embeds `log_id = 1 if max_id is None else max_id + 1` (app.py line 974). -/
def next_log_id (db : DB) (session_id : String) : Nat :=
  match max_log_id db session_id with
  | none => 1
  | some m => m + 1

theorem next_log_id_eq_max_add_one (db : DB) (sid : String) :
    next_log_id db sid = list_max (session_seqs db sid) + 1 := by
  unfold next_log_id max_log_id
  cases hl : session_seqs db sid with
  | nil => rfl
  | cons a t => rfl

theorem next_log_id_not_mem (db : DB) (sid : String) :
    next_log_id db sid ∉ session_seqs db sid := by
  intro hmem
  rw [next_log_id_eq_max_add_one] at hmem
  have := le_list_max hmem
  omega

/-- Arguments of `add_to_scene_log(session_id, user_id, content, speaker,
command_type, is_gm_override)` together with the commit time. -/
structure AppendArgs where
  session_id : String
  user_id : String
  content : String
  speaker : Option String := none
  command_type : Option String := none
  is_gm_override : Bool := false
  now : Nat
deriving Repr, DecidableEq

/-- Result dictionary returned by `add_to_scene_log` (app.py lines 999 to
1005). -/
structure LogEntryResult where
  session_id : String
  log_id : Nat
  speaker : String
  content : String
  timestamp : Nat
deriving Repr, DecidableEq

/-- Speaker lookup of `add_to_scene_log` (app.py lines 977 to 983): when the
given speaker is falsy, read the `character_name` of the membership row, with
the `User-` fallback. -/
def speaker_fallback (db : DB) (a : AppendArgs) : String :=
  match db.session_users.find? (fun u => u.session_id == a.session_id && u.user_id == a.user_id) with
  | some u => u.character_name
  | none => "User-" ++ str_last4 a.user_id

/-- Embeds the `if not speaker:` branch of `add_to_scene_log`. -/
def resolve_speaker (db : DB) (a : AppendArgs) : String :=
  match a.speaker with
  | some s => if s == "" then speaker_fallback db a else s
  | none => speaker_fallback db a

/-- The `scene_logs` row `add_to_scene_log` inserts. -/
def add_row (db : DB) (a : AppendArgs) : SceneLogRow :=
  { session_id := a.session_id
    log_id := next_log_id db a.session_id
    user_id := a.user_id
    speaker := resolve_speaker db a
    content := a.content
    command_type := a.command_type
    timestamp := a.now
    is_gm_override := a.is_gm_override }

/-- Embeds `add_to_scene_log` (app.py lines 965 to 1013): read the maximum
sequence number of the session, compute the next one, resolve the speaker,
insert the row, bump the session's `last_active`, commit. The error branch is
the PRIMARY KEY (session_id, log_id) violation SQLite raises on a duplicate
insert; the `except` clause of the Python function rolls back and re-raises,
so on error the database is unchanged. -/
def add_to_scene_log (db : DB) (a : AppendArgs) : Except String (DB × LogEntryResult) :=
  let log_id := next_log_id db a.session_id
  if log_id ∈ session_seqs db a.session_id then
    .error ("UNIQUE constraint failed: scene_logs.session_id, scene_logs.log_id")
  else
    let row := add_row db a
    let db1 := update_last_active { db with scene_logs := db.scene_logs ++ [row] } a.session_id a.now
    .ok (db1, { session_id := a.session_id, log_id := log_id
                speaker := row.speaker, content := a.content, timestamp := a.now })

/-- Entry `add_to_scene_log` reports back on success. -/
def add_entry (db : DB) (a : AppendArgs) : LogEntryResult :=
  { session_id := a.session_id, log_id := next_log_id db a.session_id
    speaker := resolve_speaker db a, content := a.content, timestamp := a.now }

/-- Database state after a successful `add_to_scene_log`. -/
def add_result_db (db : DB) (a : AppendArgs) : DB :=
  update_last_active { db with scene_logs := db.scene_logs ++ [add_row db a] } a.session_id a.now

/-- A single (sequential) append never hits the PRIMARY KEY error: the
computed sequence number is strictly greater than every existing one of the
session. -/
theorem add_to_scene_log_eq (db : DB) (a : AppendArgs) :
    add_to_scene_log db a = .ok (add_result_db db a, add_entry db a) := by
  unfold add_to_scene_log add_result_db add_entry
  rw [if_neg (next_log_id_not_mem db a.session_id)]
  rfl

/-- Embeds `SELECT * FROM rpg_sessions WHERE session_id = ? AND is_active = 1`. -/
def session_active_lookup (db : DB) (session_id : String) : Option SessionRow :=
  db.rpg_sessions.find? (fun r => r.session_id == session_id && r.is_active)

/-- Embeds `SELECT * FROM session_users WHERE session_id = ? AND user_id = ?`. -/
def member_lookup (db : DB) (session_id user_id : String) : Option SessionUserRow :=
  db.session_users.find? (fun u => u.session_id == session_id && u.user_id == user_id)

/-- Role of a member, as read by the per-command authorization queries. -/
def member_role (db : DB) (session_id user_id : String) : Option String :=
  (member_lookup db session_id user_id).map (fun u => u.role)

/-- Embeds `create_rpg_session` (app.py lines 834 to 871). The three INSERTs
(session row, `scene_info` row with `current_scene_number` left to its SQLite
default 1, creator membership with role `gm`) run on one connection with a
single commit; the `except` branch rolls back, so a storage failure at any of
the steps (modelled by the `failAt` oracle, or by a duplicate session id
violating the PRIMARY KEY) leaves the database unchanged and raises. The
fresh id of `generate_session_id` is the `session_id` parameter; `meta_info`
is the `json.dumps(meta_info or \x7b\x7d)` serialization. -/
def create_rpg_session (db : DB) (now : Nat) (session_id name created_by theme : String)
    (meta_info : Option String) (failAt : Option Nat) : DB × Except String String :=
  match failAt with
  | some _ => (db, .error ("storage failure during session creation"))
  | none =>
    if db.rpg_sessions.any (fun r => r.session_id == session_id) then
      (db, .error ("UNIQUE constraint failed: rpg_sessions.session_id"))
    else
      let s : SessionRow :=
        { session_id := session_id, name := name, created_by := created_by
          created_at := now, last_active := now, is_active := true
          theme := theme, meta_info := meta_info.getD ("\x7b\x7d") }
      let c : SceneInfoRow :=
        { session_id := session_id, location := "Unknown location"
          goal := "Awaiting mission briefing", opposition := "Unknown"
          magical_conditions := "Normal", current_scene_number := 1, last_updated := now }
      let u : SessionUserRow :=
        { session_id := session_id, user_id := created_by, role := "gm"
          character_name := "Game Master", joined_at := now }
      ({ db with
          rpg_sessions := db.rpg_sessions ++ [s]
          scene_info := db.scene_info ++ [c]
          session_users := db.session_users ++ [u] },
        .ok session_id)

/-- Results of `join_rpg_session`, with their HTTP status codes. -/
inductive JoinResult
  | notFound (message : String)
  | alreadyMember (message : String) (role : String)
  | joined (session_id : String) (role : String)
deriving Repr, DecidableEq

/-- Embeds `join_rpg_session` (app.py lines 873 to 915): absent or inactive
session is a 404, an existing membership row is a 400 reporting the existing
role, otherwise the membership is inserted and the session's `last_active`
bumped. -/
def join_rpg_session (db : DB) (now : Nat) (session_id user_id role : String)
    (character_name : Option String) : DB × JoinResult :=
  match session_active_lookup db session_id with
  | none => (db, .notFound ("Session not found or inactive"))
  | some _ =>
    match member_lookup db session_id user_id with
    | some m => (db, .alreadyMember ("User already in session") m.role)
    | none =>
      let cn := py_or_str character_name ("Runner-" ++ str_last4 user_id)
      let row : SessionUserRow :=
        { session_id := session_id, user_id := user_id, role := role
          character_name := cn, joined_at := now }
      (update_last_active { db with session_users := db.session_users ++ [row] } session_id now,
        .joined session_id role)

/-- Characters at which the value captured by the scene heuristics stops:
the regular expressions use the character class excluding newline, comma,
semicolon and period (app.py lines 1075 to 1078). -/
def stop_char (c : Char) : Bool := c == '\n' || c == ',' || c == ';' || c == '.'

/-- Longest run of non-stop characters: the greedy capture group. -/
def capture_after (l : List Char) : List Char := l.takeWhile (fun c => !stop_char c)

/-- Case-insensitive prefix test, for `re.IGNORECASE`. -/
def ci_matches_at : List Char → List Char → Bool
  | [], _ => true
  | _ :: _, [] => false
  | p :: ps, t :: ts => (p.toLower == t.toLower) && ci_matches_at ps ts

/-- Embeds `re.search(label + captureClass, text, re.IGNORECASE)` for the
patterns of the form `label:([^\n,;.]+)`: the leftmost position where the
label matches and is followed by at least one non-stop character wins. -/
def search_capture (pat : List Char) : List Char → Option (List Char)
  | [] => none
  | t :: ts =>
    if ci_matches_at pat (t :: ts) then
      let cap := capture_after ((t :: ts).drop pat.length)
      if cap.isEmpty then search_capture pat ts else some cap
    else search_capture pat ts

/-- Drops everything up to and including the first colon, `none` when there
is no colon: the `[^:]*:` part of the magical-conditions pattern. -/
def split_at_colon : List Char → Option (List Char)
  | [] => none
  | c :: cs => if c == ':' then some cs else split_at_colon cs

/-- Embeds `re.search(r"magical[^:]*:([^\n,;.]+)", text, re.IGNORECASE)`. -/
def search_magical : List Char → Option (List Char)
  | [] => none
  | t :: ts =>
    if ci_matches_at ("magical".toList) (t :: ts) then
      match split_at_colon ((t :: ts).drop 7) with
      | none => search_magical ts
      | some after =>
        let cap := capture_after after
        if cap.isEmpty then search_magical ts else some cap
    else search_magical ts

/-- Matched and stripped value for one `label:` pattern, as
`match.group(1).strip()` produces it. -/
def extract_field (label text : String) : Option String :=
  (search_capture label.toList text.toList).map (fun l => pyStrip (String.mk l))

/-- Matched and stripped value of the magical-conditions pattern. -/
def extract_magical (text : String) : Option String :=
  (search_magical text.toList).map (fun l => pyStrip (String.mk l))

/-- Embeds `SELECT * FROM scene_info WHERE session_id = ?`. -/
def scene_row_lookup (db : DB) (session_id : String) : Option SceneInfoRow :=
  db.scene_info.find? (fun s => s.session_id == session_id)

/-- Results of `process_scene_command`. -/
inductive SceneCmdResult
  | error (message : String)
  | currentScene (location goal opposition magical_conditions : String)
      (current_scene_number : Nat)
  | updated (message : String) (log_entry : LogEntryResult)
deriving Repr, DecidableEq

/-- Embeds `process_scene_command` (app.py lines 1016 to 1125): GM-only;
empty text returns the current scene; otherwise the command reads the
current scene number, appends a log entry `**SCENE n**` followed by the
text (speaker SCENE, kind scene, GM override), extracts the labeled fields
heuristically and updates only those, always setting the stored counter to
n + 1 and stamping `last_updated`. -/
def process_scene_command (db : DB) (now : Nat) (session_id user_id : String)
    (args : List String) : DB × SceneCmdResult :=
  match member_role db session_id user_id with
  | none => (db, .error ("Only the GM can use the /scene command"))
  | some role =>
    if role != "gm" then (db, .error ("Only the GM can use the /scene command"))
    else
      let scene_text := pyJoinSpace args
      if scene_text == "" then
        match scene_row_lookup db session_id with
        | none => (db, .error ("No scene information found"))
        | some s =>
          (db, .currentScene s.location s.goal s.opposition s.magical_conditions
            s.current_scene_number)
      else
        let scene_number := match scene_row_lookup db session_id with
          | some s => s.current_scene_number
          | none => 1
        let formatted := "**SCENE " ++ toString scene_number ++ "**\n" ++ scene_text
        match add_to_scene_log db
            { session_id := session_id, user_id := user_id, content := formatted
              speaker := some ("SCENE"), command_type := some ("scene")
              is_gm_override := true, now := now } with
        | .error e => (db, .error e)
        | .ok (db1, entry) =>
          let loc := extract_field ("location:") scene_text
          let goal := extract_field ("goal:") scene_text
          let opp := extract_field ("opposition:") scene_text
          let mag := extract_magical scene_text
          let db2 := { db1 with
            scene_info := db1.scene_info.map (fun s =>
              if s.session_id == session_id then
                { s with
                  location := loc.getD s.location
                  goal := goal.getD s.goal
                  opposition := opp.getD s.opposition
                  magical_conditions := mag.getD s.magical_conditions
                  current_scene_number := scene_number + 1
                  last_updated := now }
              else s) }
          (db2, .updated ("Scene updated") entry)

/-- Embeds `random.randint(lo, hi)` applied to one raw draw `r` of the
external randomness stream: a uniform choice maps onto `lo + r % (hi+1-lo)`,
and an empty range raises ValueError as in Python. -/
def pyRandint (lo hi r : Nat) : Except String Nat :=
  if hi < lo then .error ("empty range for randrange") else .ok (lo + r % (hi + 1 - lo))

/-- Rolls `n` dice with faces `1..size` from stream position `i` on, in
order, as the list comprehension of app.py line 1154 does. -/
def roll_results_from (stream : Nat → Nat) (size : Nat) : Nat → Nat → Except String (List Nat)
  | _, 0 => .ok []
  | i, n + 1 =>
    match pyRandint 1 size (stream i) with
    | .error e => .error e
    | .ok x =>
      match roll_results_from stream size (i + 1) n with
      | .error e => .error e
      | .ok xs => .ok (x :: xs)

/-- Results of `[random.randint(1, dice_size) for _ in range(num_dice)]`. -/
def roll_results (stream : Nat → Nat) (num size : Nat) : Except String (List Nat) :=
  roll_results_from stream size 0 num

theorem roll_results_from_ok (stream : Nat → Nat) (size : Nat) (h : 1 ≤ size) :
    ∀ n i, ∃ l, roll_results_from stream size i n = .ok l ∧ l.length = n ∧
      ∀ x ∈ l, 1 ≤ x ∧ x ≤ size := by
  intro n
  induction n with
  | zero => intro i; exact ⟨[], rfl, rfl, by intro x hx; cases hx⟩
  | succ n ih =>
    intro i
    obtain ⟨l, hl, hlen, hbound⟩ := ih (i + 1)
    have hr : pyRandint 1 size (stream i) = .ok (1 + stream i % size) := by
      unfold pyRandint
      rw [if_neg (by omega)]
      norm_num
    refine ⟨(1 + stream i % size) :: l, ?_, by simp [hlen], ?_⟩
    · unfold roll_results_from
      rw [hr, hl]
    · intro x hx
      rcases List.mem_cons.mp hx with hx | hx
      · subst hx
        have := Nat.mod_lt (stream i) (show 0 < size by omega)
        omega
      · exact hbound x hx

/-- Embeds the dice notation parser of `process_roll_command` (app.py lines
1136 to 1148): note the containment test for the letter d is case-sensitive
while the split happens on the lowercased spec, and a bare number means that
many six-sided dice. -/
def parse_dice_spec (spec : String) : Nat × Nat :=
  if py_char_in 'd' spec then
    match py_split_char 'd' (pyLower spec) with
    | [a, b] =>
      if pyIsDigit a && pyIsDigit b then (pyParseNat a, pyParseNat b) else (1, 6)
    | _ => (1, 6)
  else if pyIsDigit spec then (pyParseNat spec, 6)
  else (1, 6)

/-- Embeds `ones >= num_dice / 2` (app.py line 1161), where `/` is Python
real division: exact on these magnitudes, so the comparison is the rational
one. -/
def glitch_check (ones num_dice : Nat) : Bool :=
  decide ((num_dice : ℚ) / 2 ≤ (ones : ℚ))

theorem glitch_check_iff (ones n : Nat) : glitch_check ones n = true ↔ n ≤ 2 * ones := by
  unfold glitch_check
  rw [decide_eq_true_iff, div_le_iff₀ (by norm_num : (0 : ℚ) < 2)]
  rw [show (ones : ℚ) * 2 = ((2 * ones : Nat) : ℚ) by push_cast; ring]
  exact_mod_cast Iff.rfl

theorem glitch_check_eq (ones n : Nat) : glitch_check ones n = decide (n ≤ 2 * ones) := by
  by_cases h : n ≤ 2 * ones
  · rw [(glitch_check_iff ones n).mpr h, decide_eq_true h]
  · cases hg : glitch_check ones n with
    | true => exact absurd ((glitch_check_iff ones n).mp hg) h
    | false => rw [decide_eq_false h]

/-- Roll dictionary of the success payload (app.py lines 1196 to 1202). -/
structure RollInfo where
  dice : String
  results : List Nat
  successes : Nat
  glitch : Bool
  critical_glitch : Bool
deriving Repr, DecidableEq

/-- Results of `process_roll_command`. -/
inductive RollCmdResult
  | error (message : String)
  | success (roll : RollInfo) (log_entry : LogEntryResult)
deriving Repr, DecidableEq

/-- Python `str(list)` for a list of integers. -/
def pyListReprAux : List Nat → String
  | [] => ""
  | [x] => toString x
  | x :: rest => toString x ++ ", " ++ pyListReprAux rest

/-- Python `str([1, 2, 3])` rendering used in the roll log text. -/
def pyListRepr (l : List Nat) : String := "[" ++ pyListReprAux l ++ "]"

/-- Formatted roll text appended to the scene log (app.py lines 1164 to
1173). -/
def roll_result_text (num size : Nat) (results : List Nat) (successes : Nat)
    (glitch : Bool) (comment : String) : String :=
  "🎲 Rolled " ++ toString num ++ "d" ++ toString size ++ ": " ++ pyListRepr results ++ "\n"
    ++ "Successes: " ++ toString successes ++ "\n"
    ++ (if glitch then (if successes == 0 then "**CRITICAL GLITCH!**\n" else "**GLITCH!**\n") else "")
    ++ (if comment != "" then "Comment: " ++ comment else "")

/-- Embeds `process_roll_command` (app.py lines 1127 to 1210): parse the
spec (default `1d6`), clamp the dice count to 100, roll, count successes as
results of at least 5, count ones, flag a glitch when the ones reach half
the dice count, look up the character name and append the formatted roll to
the scene log. A ValueError from `randint` is caught by the handler and
reported as an error status with the database untouched. -/
def process_roll_command (db : DB) (now : Nat) (stream : Nat → Nat)
    (session_id user_id : String) (args : List String) : DB × RollCmdResult :=
  let dice_spec := args.headD ("1d6")
  let comment := pyJoinSpace (args.drop 1)
  let nd_ds := parse_dice_spec dice_spec
  let num_dice := Nat.min nd_ds.1 100
  let dice_size := nd_ds.2
  match roll_results stream num_dice dice_size with
  | .error e => (db, .error e)
  | .ok results =>
    let successes := (results.filter (fun r => decide (5 ≤ r))).length
    let ones := (results.filter (fun r => r == 1)).length
    let glitch := glitch_check ones num_dice
    let character_name := match member_lookup db session_id user_id with
      | some u => u.character_name
      | none => "Runner-" ++ str_last4 user_id
    let text := roll_result_text num_dice dice_size results successes glitch comment
    match add_to_scene_log db
        { session_id := session_id, user_id := user_id, content := text
          speaker := some character_name, command_type := some ("roll"), now := now } with
    | .error e => (db, .error e)
    | .ok (db1, entry) =>
      (db1, .success
        { dice := toString num_dice ++ "d" ++ toString dice_size, results := results
          successes := successes, glitch := glitch
          critical_glitch := glitch && successes == 0 } entry)

/-- Results of `process_summon_command`. -/
inductive SummonCmdResult
  | error (message : String)
  | success (entity_id name entity_type description : String) (log_entry : LogEntryResult)
deriving Repr, DecidableEq

/-- Embeds `process_summon_command` (app.py lines 1212 to 1297): name
required, type defaults to npc, GM required for boss, security and threat
types, entity inserted active, log entry appended with a type-dependent
verb. The generated uuid slice is the `entity_id` parameter. -/
def process_summon_command (db : DB) (now : Nat) (entity_id : String)
    (session_id user_id : String) (args : List String) : DB × SummonCmdResult :=
  match args with
  | [] => (db, .error ("Entity name required"))
  | entity_name :: rest =>
    let entity_type := rest.headD ("npc")
    let description := pyJoinSpace (rest.drop 1)
    match member_role db session_id user_id with
    | none => (db, .error ("User not found in session"))
    | some role =>
      if role != "gm" &&
          (entity_type == "boss" || entity_type == "security" || entity_type == "threat") then
        (db, .error ("Only GM can summon " ++ entity_type ++ " entities"))
      else
        let character_name := match member_lookup db session_id user_id with
          | some u => u.character_name
          | none => "Runner-" ++ str_last4 user_id
        let row : EntityRow :=
          { session_id := session_id, entity_id := entity_id, name := entity_name
            type := entity_type, status := "active", description := description
            is_active := true, created_by := user_id, created_at := now
            last_updated := now, meta_data := none }
        let db1 := { db with entities := db.entities ++ [row] }
        let action_text :=
          if entity_type == "spirit" || entity_type == "drone" || entity_type == "vehicle" then
            "summoned"
          else if entity_type == "npc" || entity_type == "contact" then "called"
          else "added"
        let log_message := "**" ++ character_name ++ "** " ++ action_text ++ " "
          ++ entity_type ++ " \x27" ++ entity_name ++ "\x27 to the scene"
          ++ (if description != "" then "\n" ++ description else "")
        match add_to_scene_log db1
            { session_id := session_id, user_id := user_id, content := log_message
              speaker := some character_name, command_type := some ("summon"), now := now } with
        | .error e => (db, .error e)
        | .ok (db2, entry) =>
          (db2, .success entity_id entity_name entity_type description entry)

/-- Results of `process_echo_command`. -/
inductive EchoCmdResult
  | error (message : String)
  | success (message : String) (log_entry : LogEntryResult)
deriving Repr, DecidableEq

/-- Embeds `process_echo_command` (app.py lines 1299 to 1340). -/
def process_echo_command (db : DB) (now : Nat) (session_id user_id : String)
    (args : List String) : DB × EchoCmdResult :=
  match args with
  | [] => (db, .error ("Message text required"))
  | _ =>
    let message := pyJoinSpace args
    match member_lookup db session_id user_id with
    | none => (db, .error ("User not found in session"))
    | some u =>
      match add_to_scene_log db
          { session_id := session_id, user_id := user_id, content := message
            speaker := some u.character_name, command_type := some ("echo"), now := now } with
      | .error e => (db, .error e)
      | .ok (db1, entry) => (db1, .success ("Echo added to scene log") entry)

/-- Token usage dictionary of the OpenAI response. -/
structure Usage where
  prompt_tokens : Nat
  completion_tokens : Nat
  total_tokens : Nat
deriving Repr, DecidableEq

/-- Outcome of one HTTP attempt against the completions endpoint: a parsed
successful response, an HTTP error status, or a transport exception. -/
inductive ApiAttempt
  | ok (text : String) (usage : Usage) (finish_reason : String)
  | httpError (status : Nat) (body : String)
  | exn (message : String)

/-- External inputs of `call_openai_api`: the response cache entry for this
prompt if fresh, the configured API key, the outcome of each successive HTTP
attempt, and the wall-clock string the simulator interpolates. -/
structure AiEnv where
  cached : Option (String × Usage × String)
  api_key : Option String
  attempts : Nat → ApiAttempt
  clock : String

/-- Embeds `validate_openai_key` (app.py lines 164 to 171). -/
def validate_openai_key (key : String) : Bool :=
  (key != "") && (py_startswith ("sk-") key || py_startswith ("sk-proj-") key)
    && decide (20 < key.toList.length)

/-- Canned answers of `simulate_ai_response` (app.py lines 727 to 734), in
dictionary insertion order; the current-time answer interpolates the clock. -/
def sim_responses (clock : String) : List (String × String) :=
  [("what is artificial intelligence",
    "Artificial Intelligence (AI) refers to computer systems designed to perform tasks that typically require human intelligence. These include learning, reasoning, problem-solving, perception, and language understanding. AI can be categorized into narrow AI (designed for specific tasks) and general AI (with broader human-like capabilities)."),
   ("tell me a joke",
    "Why don\x27t scientists trust atoms? Because they make up everything!"),
   ("what time is it",
    "I\x27m a simulated AI, but the current server time is " ++ clock ++ "."),
   ("who are you",
    "I\x27m Wren, a simulated AI assistant. In a real implementation, I would be powered by OpenAI\x27s GPT models to provide helpful responses to your questions."),
   ("hello",
    "Hello there! I\x27m Wren, your terminal assistant. How can I help you today?"),
   ("help",
    "I can answer questions and provide information on various topics. Try asking me something!")]

/-- First canned answer whose key matches by two-way containment, as the
`for key, response in responses.items()` loop does. -/
def find_sim (processed : String) : List (String × String) → Option String
  | [] => none
  | (k, v) :: rest =>
    if py_in_str processed k || py_in_str k processed then some v else find_sim processed rest

/-- Default simulated answer when nothing matches (app.py line 746). -/
def sim_default (prompt : String) : String :=
  "[Simulated AI] I processed your input: \x27" ++ prompt
    ++ "\x27\n\nThis is a simulated response because no valid OpenAI API key was provided. Please add a valid API key to the .env file to get real AI responses."

/-- Embeds `simulate_ai_response` (app.py lines 722 to 758): normalize the
prompt, look it up in the canned table, fall back to the default text, and
report word-count token usage with finish reason stop. -/
def simulate_ai_response (clock : String) (prompt : String) (max_tokens : Nat) :
    String × Usage × String :=
  let _ := max_tokens
  let processed := pyStrip (pyRstripQ (pyStrip (pyLower prompt)))
  let sim_response := (find_sim processed (sim_responses clock)).getD (sim_default prompt)
  let pt := (py_split_ws prompt).length
  let ct := (py_split_ws sim_response).length
  (sim_response, { prompt_tokens := pt, completion_tokens := ct, total_tokens := pt + ct }, "stop")

/-- Status codes the retry loop retries on (app.py line 619). -/
def retryable_status (c : Nat) : Bool :=
  c == 429 || c == 500 || c == 502 || c == 503 || c == 504

/-- Embeds the retry loop of `call_openai_api` (app.py lines 616 to 686):
at most `max_retries = 3` retries, only on retryable statuses; any other
failure, exhaustion, or transport exception abandons the loop with no
response data. The fuel is 4, one unit per attempt. -/
def run_attempts (attempts : Nat → ApiAttempt) : Nat → Nat → Option (String × Usage × String)
  | _, 0 => none
  | k, fuel + 1 =>
    match attempts k with
    | .ok t u f => some (t, u, f)
    | .httpError c _ =>
      if retryable_status c && decide (k < 3) then run_attempts attempts (k + 1) fuel else none
    | .exn _ => none

/-- Embeds `call_openai_api` (app.py lines 564 to 720). Every failure path
(invalid or placeholder key, non-retryable HTTP error, exhausted retries,
transport exception, malformed response data) returns
`simulate_ai_response(prompt, ...)` instead of raising: the function always
returns a text, usage and finish-reason triple and never propagates a
generation failure to its caller. -/
def call_openai_api (env : AiEnv) (prompt : String) (max_tokens : Nat) :
    String × Usage × String :=
  match env.cached with
  | some r => r
  | none =>
    match env.api_key with
    | none => simulate_ai_response env.clock prompt max_tokens
    | some key =>
      if key == "your_openai_api_key_here" || !validate_openai_key key then
        simulate_ai_response env.clock prompt max_tokens
      else
        match run_attempts env.attempts 0 4 with
        | some r => r
        | none => simulate_ai_response env.clock prompt max_tokens

/-- Results of the `/api/rpg/command` endpoint, with the HTTP shape of each
branch (app.py lines 1346 to 1450); `endpointError` is the catch-all
`except Exception` handler at line 1448, which answers with status error
and code 500. -/
inductive RpgOutcome
  | badRequest (message : String)
  | notFound (message : String)
  | forbidden (message : String)
  | scene (r : SceneCmdResult)
  | roll (r : RollCmdResult)
  | summon (r : SummonCmdResult)
  | echo (r : EchoCmdResult)
  | notImplementedCmd (message : String)
  | unknownCommand (message : String)
  | aiStream
  | ai (output : String) (usage : Usage) (log_entry : LogEntryResult)
  | endpointError (message : String)
deriving Repr, DecidableEq

/-- Parameter names of `call_openai_api_streaming` (app.py line 445); the
signature has no `**kwargs`. -/
def call_openai_api_streaming_params : List String :=
  ["prompt", "max_tokens", "temperature", "model", "user_id"]

/-- Parameter names of `call_openai_api` (app.py line 564); the signature
has no `**kwargs`. -/
def call_openai_api_params : List String :=
  ["prompt", "max_tokens", "temperature", "model", "user_id", "stream"]

/-- Keyword-argument names the AI branch of `rpg_command` passes to the
completion call, in both the streaming and the non-streaming branch
(app.py lines 1416 to 1421 and 1425 to 1430): note the `context` keyword. -/
def rpg_ai_call_kwargs : List String := ["prompt", "max_tokens", "user_id", "context"]

/-- Python binds keyword arguments before a function body runs: when a
keyword is not among the parameters of a function without `**kwargs`, the
call raises TypeError at the call site, before the callee executes. -/
def py_kwargs_bind (params kwargs : List String) : Bool :=
  kwargs.all (fun k => params.contains k)

/-- Embeds `rpg_command` (app.py lines 1346 to 1450): parameter checks,
session and membership checks, slash-command dispatch; a non-slash command
is forwarded to the AI. Both AI calls pass a `context` keyword argument
that neither `call_openai_api_streaming` nor `call_openai_api` accepts, so
every request reaching this branch raises TypeError at the call site; the
outer exception handler turns it into the 500 error response and nothing is
appended to the scene log. The branches under a successful keyword binding
embed the source text that this TypeError makes unreachable (stream the
response; respectively call, append under speaker WREN with kind ai, and
answer with success). -/
def rpg_command (db : DB) (env : AiEnv) (now : Nat) (stream : Nat → Nat) (entity_id : String)
    (session_id user_id raw_command : String) (streaming : Bool) : DB × RpgOutcome :=
  let command := pyStrip raw_command
  if session_id == "" || user_id == "" || command == "" then
    (db, .badRequest ("Missing required parameters: session_id, user_id, command"))
  else
    match session_active_lookup db session_id with
    | none => (db, .notFound ("Session not found or inactive"))
    | some _ =>
      match member_lookup db session_id user_id with
      | none => (db, .forbidden ("User not in session"))
      | some _ =>
        if py_startswith ("/") command then
          let parts := py_split_ws command
          let cmd := pyLower (String.mk ((parts.headD ("/")).toList.drop 1))
          let args := parts.drop 1
          if cmd == "scene" then
            let r := process_scene_command db now session_id user_id args
            (r.1, .scene r.2)
          else if cmd == "roll" then
            let r := process_roll_command db now stream session_id user_id args
            (r.1, .roll r.2)
          else if cmd == "summon" then
            let r := process_summon_command db now entity_id session_id user_id args
            (r.1, .summon r.2)
          else if cmd == "echo" then
            let r := process_echo_command db now session_id user_id args
            (r.1, .echo r.2)
          else if cmd == "mark" || cmd == "meta" || cmd == "recall" || cmd == "pulse" then
            (db, .notImplementedCmd ("The /" ++ cmd ++ " command is not yet implemented"))
          else
            (db, .unknownCommand ("Unknown command: /" ++ cmd))
        else
          if streaming then
            if py_kwargs_bind call_openai_api_streaming_params rpg_ai_call_kwargs then
              (db, .aiStream)
            else
              (db, .endpointError
                ("call_openai_api_streaming() got an unexpected keyword argument \x27context\x27"))
          else
            if py_kwargs_bind call_openai_api_params rpg_ai_call_kwargs then
              let r := call_openai_api env command 500
              match add_to_scene_log db
                  { session_id := session_id, user_id := user_id, content := r.1
                    speaker := some ("WREN"), command_type := some ("ai"), now := now } with
              | .error e => (db, .endpointError e)
              | .ok (db1, entry) => (db1, .ai r.1 r.2.1 entry)
            else
              (db, .endpointError
                ("call_openai_api() got an unexpected keyword argument \x27context\x27"))

/-- Events yielded by the `/api/rpg/stream` generator. -/
inductive StreamEvent
  | connected (session_id : String)
  | logEvent (entry : SceneLogRow)
  | entity_update (e : EntityRow)
  | scene_update (s : SceneInfoRow)
  | heartbeat (timestamp : Nat)
  | streamError (message : String)
deriving Repr, DecidableEq

/-- Insertion step of the stable sort embedding SQL ORDER BY. -/
def insertByKey {α : Type} (key : α → Nat) (x : α) : List α → List α
  | [] => [x]
  | y :: ys => if key x ≤ key y then x :: y :: ys else y :: insertByKey key x ys

/-- Stable insertion sort by a natural key, embedding SQL ORDER BY. -/
def sortByKey {α : Type} (key : α → Nat) (l : List α) : List α :=
  l.foldr (insertByKey key) []

/-- Embeds the timestamp argument `datetime.now() - datetime.timedelta(seconds=5)`
of the entity and scene queries (app.py lines 1519 and 1535). Line 17,
`from datetime import datetime`, rebinds the name `datetime` to the class,
shadowing the module imported at line 8, so the attribute access
`datetime.timedelta` raises AttributeError when the expression is evaluated;
the embedded value is therefore always this error. -/
def entity_cutoff (_now : Nat) : Except String Nat :=
  .error ("type object datetime has no attribute timedelta")

/-- Embeds one iteration of the polling loop of `rpg_stream` (app.py lines
1489 to 1562): emit the log entries newer than the cursor in ascending
order and advance the cursor, then evaluate the entity query, whose cutoff
expression raises; the surrounding `except` turns the rest of the iteration
(entity updates, scene update and heartbeat) into a single error event. The
dead branch after the cutoff is the query the code would run with a
five-second wall-clock window. -/
def rpg_stream_cycle (db : DB) (now : Nat) (session_id : String) (last_log_id : Nat) :
    List StreamEvent × Nat :=
  let new_logs := sortByKey (fun r => r.log_id)
    (db.scene_logs.filter (fun r => r.session_id == session_id && decide (last_log_id < r.log_id)))
  let cursor := if new_logs.isEmpty then last_log_id
    else list_max (new_logs.map (fun r => r.log_id))
  let logEvents := new_logs.map StreamEvent.logEvent
  match entity_cutoff now with
  | .error msg => (logEvents ++ [.streamError msg], cursor)
  | .ok cutoff =>
    let ents := sortByKey (fun e => e.last_updated)
      (db.entities.filter (fun e => e.session_id == session_id && decide (cutoff < e.last_updated)))
    let entEvents := ents.map StreamEvent.entity_update
    let scEvents := match db.scene_info.find?
        (fun s => s.session_id == session_id && decide (cutoff < s.last_updated)) with
      | some s => [StreamEvent.scene_update s]
      | none => []
    (logEvents ++ entEvents ++ scEvents ++ [.heartbeat now], cursor)

/-- Modelled from the spec, change feed step 2 of section 4.6: the entities
of the session whose `last_updated` is newer than the last entity timestamp
this consumer has seen. Claim-side definition used to compare the code
against what C7 states. -/
def spec_entity_updates (db : DB) (session_id : String) (lastSeen : Nat) : List EntityRow :=
  db.entities.filter (fun e => e.session_id == session_id && decide (lastSeen < e.last_updated))

/-- Modelled from the spec, roll success rule of section 4.5: success iff
the result is at least `faceSize - 1` (the top two faces). Claim-side
definition used to compare the code against what C2 states. -/
def spec_successes (results : List Nat) (faceSize : Nat) : Nat :=
  (results.filter (fun r => decide (faceSize - 1 ≤ r))).length

/-- Phase of one in-flight `add_to_scene_log` call in the fine-grained
concurrency model of section 5: reads happen first (`SELECT MAX(log_id)`
and the speaker lookup, neither of which the other appender writes to),
then the INSERT with the PRIMARY KEY check and the `last_active` bump
commit atomically. -/
inductive APhase
  | start
  | gotMax (m : Option Nat) (speaker : String)
  | doneOk (seq : Nat)
  | doneErr
deriving Repr, DecidableEq

/-- One atomic step of an appender: `start` performs the reads, `gotMax`
performs the insert, which hits the PRIMARY KEY error exactly when the
computed sequence number already exists (the duplicate INSERT or the lock
conflict SQLite reports loudly); finished appenders do not move. -/
def stepOne (db : DB) (a : AppendArgs) : APhase → DB × APhase
  | .start => (db, .gotMax (max_log_id db a.session_id) (resolve_speaker db a))
  | .gotMax m spk =>
    let log_id := match m with | none => 1 | some k => k + 1
    if log_id ∈ session_seqs db a.session_id then (db, .doneErr)
    else
      let row : SceneLogRow :=
        { session_id := a.session_id, log_id := log_id, user_id := a.user_id
          speaker := spk, content := a.content, command_type := a.command_type
          timestamp := a.now, is_gm_override := a.is_gm_override }
      (update_last_active { db with scene_logs := db.scene_logs ++ [row] } a.session_id a.now,
        .doneOk log_id)
  | p => (db, p)

/-- Runs two concurrent appenders under an arbitrary interleaving: `true`
steps the first, `false` the second. -/
def runSched (a1 a2 : AppendArgs) : List Bool → DB → APhase → APhase → DB × APhase × APhase
  | [], db, t1, t2 => (db, t1, t2)
  | true :: rest, db, t1, t2 =>
    let s := stepOne db a1 t1
    runSched a1 a2 rest s.1 s.2 t2
  | false :: rest, db, t1, t2 =>
    let s := stepOne db a2 t2
    runSched a1 a2 rest s.1 t1 s.2

/-- Number of rows an appender in this phase has committed. -/
def okCount : APhase → Nat
  | .doneOk _ => 1
  | _ => 0

/-- Appender that has committed its row. -/
def isOkPh (p : APhase) : Prop := ∃ s, p = APhase.doneOk s

/-- Value of the observed `SELECT MAX(log_id)`: SQL NULL reads as 0. -/
def obsVal : Option Nat → Nat
  | none => 0
  | some m => m

/-- Sequence numbers of the session are exactly 1..n: the gapless
from-one invariant of the scene log. -/
def Contig (db : DB) (sid : String) (n : Nat) : Prop :=
  ∀ k : Nat, k ∈ session_seqs db sid ↔ (1 ≤ k ∧ k ≤ n)

theorem contig_max {db : DB} {sid : String} {n : Nat} (h : Contig db sid n) :
    obsVal (max_log_id db sid) = n := by
  unfold max_log_id
  cases n with
  | zero =>
    have hnil : session_seqs db sid = [] := by
      apply List.eq_nil_iff_forall_not_mem.mpr
      intro k hk
      have := (h k).mp hk
      omega
    rw [hnil]
    rfl
  | succ n =>
    have hmem : (n + 1) ∈ session_seqs db sid := (h (n + 1)).mpr ⟨by omega, Nat.le_refl _⟩
    cases hl : session_seqs db sid with
    | nil => rw [hl] at hmem; cases hmem
    | cons a t =>
      show obsVal (some (list_max (a :: t))) = n + 1
      have hmem2 : (n + 1) ∈ a :: t := hl ▸ hmem
      have hub : list_max (a :: t) ≤ n + 1 := by
        apply list_max_le
        intro x hx
        exact ((h x).mp (hl ▸ hx)).2
      have hlb : n + 1 ≤ list_max (a :: t) := le_list_max hmem2
      show list_max (a :: t) = n + 1
      omega

/-- Per-appender part of the interleaving invariant: an appender that has
read max `m` saw either the current count or, when the other appender has
committed one row since the read, one less; a committed appender's
sequence number is in the log. -/
def TP (db : DB) (sid : String) (n : Nat) : APhase → APhase → Prop
  | .start, _ => True
  | .gotMax m _, other => obsVal m = n ∨ (obsVal m + 1 = n ∧ isOkPh other)
  | .doneOk s, _ => s ∈ session_seqs db sid
  | .doneErr, _ => True

/-- Interleaving invariant for two appenders over a log that started
contiguous at n0. -/
def Inv (sid : String) (n0 : Nat) (db : DB) (t1 t2 : APhase) : Prop :=
  Contig db sid (n0 + okCount t1 + okCount t2) ∧
  (session_seqs db sid).Nodup ∧
  TP db sid (n0 + okCount t1 + okCount t2) t1 t2 ∧
  TP db sid (n0 + okCount t1 + okCount t2) t2 t1 ∧
  ∀ s t, t1 = .doneOk s → t2 = .doneOk t → s ≠ t

theorem TP_change_other {db : DB} {sid : String} {n : Nat} {p o o' : APhase}
    (h : TP db sid n p o) (himp : isOkPh o → isOkPh o') : TP db sid n p o' := by
  cases p with
  | start => trivial
  | gotMax m spk =>
    rcases h with h | ⟨h1, h2⟩
    · exact Or.inl h
    · exact Or.inr ⟨h1, himp h2⟩
  | doneOk s => exact h
  | doneErr => trivial

theorem Inv_symm {sid : String} {n0 : Nat} {db : DB} {t1 t2 : APhase}
    (h : Inv sid n0 db t1 t2) : Inv sid n0 db t2 t1 := by
  obtain ⟨hC, hN, hT1, hT2, hD⟩ := h
  have e : n0 + okCount t2 + okCount t1 = n0 + okCount t1 + okCount t2 := by omega
  refine ⟨by rw [e]; exact hC, hN, by rw [e]; exact hT2, by rw [e]; exact hT1, ?_⟩
  intro s t h2 h1
  exact (hD t s h1 h2).symm

theorem session_seqs_update_last_active (db : DB) (s sid : String) (t : Nat) :
    session_seqs (update_last_active db s t) sid = session_seqs db sid := rfl

theorem session_seqs_append_row (db : DB) (row : SceneLogRow) (sid : String)
    (h : row.session_id = sid) :
    session_seqs { db with scene_logs := db.scene_logs ++ [row] } sid =
      session_seqs db sid ++ [row.log_id] := by
  unfold session_seqs
  rw [List.filter_append, List.map_append]
  congr 1
  simp [List.filter_cons, h]

theorem match_obsVal (m : Option Nat) :
    (match m with | none => 1 | some k => k + 1) = obsVal m + 1 := by
  cases m <;> rfl

theorem step_preserves (sid : String) (n0 : Nat) (db : DB) (a : AppendArgs) (t1 t2 : APhase)
    (ha : a.session_id = sid) (h : Inv sid n0 db t1 t2) :
    Inv sid n0 (stepOne db a t1).1 (stepOne db a t1).2 t2 := by
  subst ha
  obtain ⟨hC, hN, hT1, hT2, hD⟩ := h
  cases t1 with
  | start =>
    refine ⟨hC, hN, ?_, ?_, ?_⟩
    · exact Or.inl (contig_max hC)
    · exact TP_change_other hT2 (fun hok => by rcases hok with ⟨s, hs⟩; cases hs)
    · intro s t h1 h2; cases h1
  | doneOk s => exact ⟨hC, hN, hT1, hT2, hD⟩
  | doneErr => exact ⟨hC, hN, hT1, hT2, hD⟩
  | gotMax m spk =>
    simp only [stepOne]
    rw [match_obsVal m]
    by_cases hmem : obsVal m + 1 ∈ session_seqs db a.session_id
    · rw [if_pos hmem]
      refine ⟨hC, hN, trivial, ?_, ?_⟩
      · exact TP_change_other hT2 (fun hok => by rcases hok with ⟨s, hs⟩; cases hs)
      · intro s t h1 h2; cases h1
    · rw [if_neg hmem]
      have hobs : obsVal m = n0 + okCount t2 := by
        rcases hT1 with h1 | ⟨h1, _⟩
        · simpa [okCount] using h1
        · exfalso
          apply hmem
          apply (hC (obsVal m + 1)).mpr
          simp only [okCount] at h1 ⊢
          omega
      set row : SceneLogRow :=
        { session_id := a.session_id, log_id := obsVal m + 1, user_id := a.user_id
          speaker := spk, content := a.content, command_type := a.command_type
          timestamp := a.now, is_gm_override := a.is_gm_override } with hrow
      have hseqs : session_seqs
          (update_last_active { db with scene_logs := db.scene_logs ++ [row] } a.session_id a.now)
          a.session_id = session_seqs db a.session_id ++ [obsVal m + 1] := by
        rw [session_seqs_update_last_active, session_seqs_append_row db row a.session_id rfl]
      refine ⟨?_, ?_, ?_, ?_, ?_⟩
      · intro k
        rw [hseqs, List.mem_append, List.mem_singleton, hC k]
        simp only [okCount] at hobs ⊢
        omega
      · rw [hseqs]
        simp [List.nodup_append, hN, hmem]
      · show obsVal m + 1 ∈ _
        rw [hseqs]
        simp
      · cases t2 with
        | start => trivial
        | doneErr => trivial
        | doneOk s =>
          show s ∈ _
          rw [hseqs]
          exact List.mem_append_left _ hT2
        | gotMax m2 spk2 =>
          rcases hT2 with h2 | ⟨h2, hok⟩
          · refine Or.inr ⟨?_, ⟨obsVal m + 1, rfl⟩⟩
            simp only [okCount] at h2 ⊢
            omega
          · rcases hok with ⟨s, hs⟩; cases hs
      · intro s t h1 h2
        cases h1
        subst h2
        have ht : t ∈ session_seqs db a.session_id := hT2
        intro hst
        rw [← hst] at ht
        exact hmem ht

theorem runSched_preserves (a1 a2 : AppendArgs) (sid : String) (n0 : Nat)
    (h1 : a1.session_id = sid) (h2 : a2.session_id = sid) :
    ∀ (sched : List Bool) (db : DB) (t1 t2 : APhase), Inv sid n0 db t1 t2 →
      Inv sid n0 (runSched a1 a2 sched db t1 t2).1 (runSched a1 a2 sched db t1 t2).2.1
        (runSched a1 a2 sched db t1 t2).2.2 := by
  intro sched
  induction sched with
  | nil => intro db t1 t2 h; exact h
  | cons b rest ih =>
    intro db t1 t2 h
    cases b with
    | true =>
      simp only [runSched]
      exact ih _ _ _ (step_preserves sid n0 db a1 t1 t2 h1 h)
    | false =>
      simp only [runSched]
      exact ih _ _ _ (Inv_symm (step_preserves sid n0 db a2 t2 t1 h2 (Inv_symm h)))

theorem add_result_db_scene_logs (db : DB) (a : AppendArgs) :
    (add_result_db db a).scene_logs = db.scene_logs ++ [add_row db a] := rfl

theorem add_result_db_scene_info (db : DB) (a : AppendArgs) :
    (add_result_db db a).scene_info = db.scene_info := rfl

/-- Workhorse for the roll claims: with a parsed dice count and a positive
face size, `process_roll_command` succeeds and its payload is exactly the
clamped count of in-range results with the fixed-threshold success count and
the half-count glitch flag. -/
theorem process_roll_command_spec (db : DB) (now : Nat) (stream : Nat → Nat)
    (session_id user_id : String) (args : List String) (nd ds : Nat)
    (hparse : parse_dice_spec (args.headD ("1d6")) = (nd, ds)) (hds : 1 ≤ ds) :
    ∃ results,
      results.length = Nat.min nd 100 ∧ (∀ x ∈ results, 1 ≤ x ∧ x ≤ ds) ∧
      ∃ entry, (process_roll_command db now stream session_id user_id args).2 =
        .success
          { dice := toString (Nat.min nd 100) ++ "d" ++ toString ds
            results := results
            successes := (results.filter (fun r => decide (5 ≤ r))).length
            glitch := glitch_check ((results.filter (fun r => r == 1)).length) (Nat.min nd 100)
            critical_glitch :=
              glitch_check ((results.filter (fun r => r == 1)).length) (Nat.min nd 100)
                && (results.filter (fun r => decide (5 ≤ r))).length == 0 }
          entry := by
  obtain ⟨l, hl, hlen, hbound⟩ := roll_results_from_ok stream ds hds (Nat.min nd 100) 0
  refine ⟨l, hlen, hbound, ?_⟩
  simp only [process_roll_command, hparse, roll_results, hl, add_to_scene_log_eq]
  exact ⟨_, rfl⟩

/-- C8: a roll of `3d6` always produces exactly 3 results in 1..6; glitch
holds iff at least 2 of the 3 results are 1 (the real-division threshold
`ones >= 3 / 2` reached at two ones); critical glitch holds iff glitch with
zero successes, so critical glitch implies glitch and never conversely. -/
theorem c8_roll_3d6_properties (db : DB) (now : Nat) (stream : Nat → Nat)
    (session_id user_id : String) (rest : List String) :
    ∃ info entry,
      (process_roll_command db now stream session_id user_id ("3d6" :: rest)).2 =
        .success info entry ∧
      info.results.length = 3 ∧
      (∀ x ∈ info.results, 1 ≤ x ∧ x ≤ 6) ∧
      (info.glitch = true ↔ 2 ≤ (info.results.filter (fun r => r == 1)).length) ∧
      (info.critical_glitch = true ↔ (info.glitch = true ∧ info.successes = 0)) ∧
      (info.critical_glitch = true → info.glitch = true) := by
  obtain ⟨results, hlen, hbound, entry, hres⟩ :=
    process_roll_command_spec db now stream session_id user_id ("3d6" :: rest) 3 6 rfl (by omega)
  refine ⟨_, entry, hres, hlen, hbound, ?_, ?_, ?_⟩
  · show glitch_check ((results.filter (fun r => r == 1)).length) (Nat.min 3 100) = true ↔
      2 ≤ (results.filter (fun r => r == 1)).length
    rw [show Nat.min 3 100 = 3 from rfl, glitch_check_iff]
    constructor <;> intro h <;> omega
  · show (glitch_check ((results.filter (fun r => r == 1)).length) (Nat.min 3 100)
        && (results.filter (fun r => decide (5 ≤ r))).length == 0) = true ↔
      (glitch_check ((results.filter (fun r => r == 1)).length) (Nat.min 3 100) = true ∧
        (results.filter (fun r => decide (5 ≤ r))).length = 0)
    simp only [Bool.and_eq_true, beq_iff_eq]
  · show (glitch_check ((results.filter (fun r => r == 1)).length) (Nat.min 3 100)
        && (results.filter (fun r => decide (5 ≤ r))).length == 0) = true →
      glitch_check ((results.filter (fun r => r == 1)).length) (Nat.min 3 100) = true
    intro h
    simp only [Bool.and_eq_true] at h
    exact h.1

/-- C10: a roll command with dice spec `0d6` does not fail validation: it
returns success with an empty results list, zero successes, glitch true
(zero ones reach the threshold zero divided by two) and hence critical
glitch true. -/
theorem c10_zero_dice_critical_glitch (db : DB) (now : Nat) (stream : Nat → Nat)
    (session_id user_id : String) :
    ∃ entry, (process_roll_command db now stream session_id user_id ["0d6"]).2 =
      .success { dice := "0d6", results := [], successes := 0
                 glitch := true, critical_glitch := true } entry := by
  obtain ⟨results, hlen, hbound, entry, hres⟩ :=
    process_roll_command_spec db now stream session_id user_id ["0d6"] 0 6 rfl (by omega)
  have hnil : results = [] := List.length_eq_zero.mp hlen
  subst hnil
  refine ⟨entry, ?_⟩
  rw [hres]
  simp only [List.filter_nil, List.length_nil, glitch_check_eq]
  rfl

theorem roll_1d10_draw4_eval :
    (process_roll_command emptyDB 7 (fun _ => 4) ("s1") ("u1") ["1d10"]).2 =
      .success { dice := "1d10", results := [5], successes := 1
                 glitch := false, critical_glitch := false }
        { session_id := "s1", log_id := 1, speaker := "Runner-u1"
          content := "🎲 Rolled 1d10: [5]\nSuccesses: 1\n", timestamp := 7 } := by
  have hp : parse_dice_spec ((["1d10"] : List String).headD ("1d6")) = (1, 10) := by decide
  have hr : roll_results (fun _ => 4) (Nat.min 1 100) 10 = .ok [5] := rfl
  simp only [process_roll_command, hp, hr, add_to_scene_log_eq, glitch_check_eq]
  decide

/-- C2 counterexample: on the roll `1d10` with raw draw 4 the die shows 5;
the code counts it as a success (fixed threshold 5) while the success rule
of the claim (result at least faceSize minus 1, here 9) counts zero
successes, so the claimed top-two-faces rule does not hold for face sizes
other than 6. -/
theorem c2_success_threshold_counterexample :
    (process_roll_command emptyDB 7 (fun _ => 4) ("s1") ("u1") ["1d10"]).2 =
      .success { dice := "1d10", results := [5], successes := 1
                 glitch := false, critical_glitch := false }
        { session_id := "s1", log_id := 1, speaker := "Runner-u1"
          content := "🎲 Rolled 1d10: [5]\nSuccesses: 1\n", timestamp := 7 } ∧
    spec_successes [5] 10 = 0 ∧ (1 : Nat) ≠ 0 := by
  refine ⟨roll_1d10_draw4_eval, by decide, by omega⟩

/-- C2 amended: in `process_roll_command` a die result counts as a success
iff it is at least 5, for every face size; only for six-sided dice does
this coincide with the top-two-faces rule result at least faceSize minus 1. -/
theorem c2_success_threshold_amended (db : DB) (now : Nat) (stream : Nat → Nat)
    (session_id user_id : String) (args : List String) (info : RollInfo)
    (entry : LogEntryResult)
    (h : (process_roll_command db now stream session_id user_id args).2 = .success info entry) :
    info.successes = (info.results.filter (fun r => decide (5 ≤ r))).length ∧
    ((parse_dice_spec (args.headD ("1d6"))).2 = 6 →
      info.successes = spec_successes info.results (parse_dice_spec (args.headD ("1d6"))).2) := by
  cases hr : roll_results stream (Nat.min (parse_dice_spec (args.headD ("1d6"))).1 100)
      (parse_dice_spec (args.headD ("1d6"))).2 with
  | error e =>
    simp only [process_roll_command, hr] at h
    cases h
  | ok results =>
    simp only [process_roll_command, hr, add_to_scene_log_eq] at h
    cases h
    refine ⟨rfl, ?_⟩
    intro h6
    rw [h6]
    rfl

/-- C2 amended witness at the `1d10` roll of the counterexample input. -/
theorem c2_success_threshold_amended_witness :
    ({ dice := "1d10", results := [5], successes := 1
       glitch := false, critical_glitch := false } : RollInfo).successes =
      (([5] : List Nat).filter (fun r => decide (5 ≤ r))).length :=
  (c2_success_threshold_amended emptyDB 7 (fun _ => 4) ("s1") ("u1") ["1d10"]
    { dice := "1d10", results := [5], successes := 1
      glitch := false, critical_glitch := false }
    { session_id := "s1", log_id := 1, speaker := "Runner-u1"
      content := "🎲 Rolled 1d10: [5]\nSuccesses: 1\n", timestamp := 7 }
    roll_1d10_draw4_eval).1

/-- C4: session creation inserts exactly three rows, the session row, the
initial scene-state row with every field defaulted (location Unknown
location, goal Awaiting mission briefing, opposition Unknown, magical
conditions Normal, scene number 1) and the membership row enrolling the
creator as game master, and the inserts are atomic: on any persistence
failure nothing is committed. -/
theorem c4_create_session_atomic (db : DB) (now : Nat)
    (session_id name created_by theme : String) (meta_info : Option String)
    (failAt : Option Nat) :
    match (create_rpg_session db now session_id name created_by theme meta_info failAt).2 with
    | .error _ =>
        (create_rpg_session db now session_id name created_by theme meta_info failAt).1 = db
    | .ok rid =>
        rid = session_id ∧
        (create_rpg_session db now session_id name created_by theme meta_info failAt).1.rpg_sessions
          = db.rpg_sessions ++
            [{ session_id := session_id, name := name, created_by := created_by
               created_at := now, last_active := now, is_active := true
               theme := theme, meta_info := meta_info.getD ("\x7b\x7d") }] ∧
        (create_rpg_session db now session_id name created_by theme meta_info failAt).1.scene_info
          = db.scene_info ++
            [{ session_id := session_id, location := "Unknown location"
               goal := "Awaiting mission briefing", opposition := "Unknown"
               magical_conditions := "Normal", current_scene_number := 1
               last_updated := now }] ∧
        (create_rpg_session db now session_id name created_by theme meta_info failAt).1.session_users
          = db.session_users ++
            [{ session_id := session_id, user_id := created_by, role := "gm"
               character_name := "Game Master", joined_at := now }] ∧
        (create_rpg_session db now session_id name created_by theme meta_info failAt).1.scene_logs
          = db.scene_logs ∧
        (create_rpg_session db now session_id name created_by theme meta_info failAt).1.entities
          = db.entities := by
  cases failAt with
  | some k => rfl
  | none =>
    cases hdup : db.rpg_sessions.any (fun r => r.session_id == session_id) with
    | true => simp [create_rpg_session, hdup]
    | false => simp [create_rpg_session, hdup]

/-- C5: joining a nonexistent or inactive session fails with the
session-not-found error; joining with an existing membership row fails with
the already-member error and changes nothing (a second join is an error, not
a no-op); otherwise exactly the membership row is inserted and the session's
last_active is bumped. -/
theorem c5_join_session_checks (db : DB) (now : Nat) (session_id user_id role : String)
    (character_name : Option String) :
    if ∃ s ∈ db.rpg_sessions, s.session_id = session_id ∧ s.is_active = true then
      if ∃ m ∈ db.session_users, m.session_id = session_id ∧ m.user_id = user_id then
        (join_rpg_session db now session_id user_id role character_name).1 = db ∧
        ∃ msg rl, (join_rpg_session db now session_id user_id role character_name).2 =
          .alreadyMember msg rl
      else
        (∃ cn, (join_rpg_session db now session_id user_id role character_name).1.session_users
          = db.session_users ++
            [{ session_id := session_id, user_id := user_id, role := role
               character_name := cn, joined_at := now }]) ∧
        (∀ s ∈ (join_rpg_session db now session_id user_id role character_name).1.rpg_sessions,
          s.session_id = session_id → s.last_active = now) ∧
        (join_rpg_session db now session_id user_id role character_name).1.rpg_sessions.length
          = db.rpg_sessions.length ∧
        (join_rpg_session db now session_id user_id role character_name).1.scene_logs
          = db.scene_logs ∧
        (join_rpg_session db now session_id user_id role character_name).1.scene_info
          = db.scene_info ∧
        (join_rpg_session db now session_id user_id role character_name).1.entities
          = db.entities ∧
        (join_rpg_session db now session_id user_id role character_name).2 =
          .joined session_id role
    else
      (join_rpg_session db now session_id user_id role character_name).1 = db ∧
      ∃ msg, (join_rpg_session db now session_id user_id role character_name).2 =
        .notFound msg := by
  cases hs : session_active_lookup db session_id with
  | none =>
    have hno : ¬ ∃ s ∈ db.rpg_sessions, s.session_id = session_id ∧ s.is_active = true := by
      rintro ⟨s, hmem, h1, h2⟩
      have := List.find?_eq_none.mp hs s hmem
      simp [h1, h2] at this
    rw [if_neg hno]
    simp [join_rpg_session, hs]
  | some srow =>
    have hyes : ∃ s ∈ db.rpg_sessions, s.session_id = session_id ∧ s.is_active = true := by
      have h1 := List.find?_some hs
      have h2 := List.mem_of_find?_eq_some hs
      simp only [Bool.and_eq_true, beq_iff_eq] at h1
      exact ⟨srow, h2, h1.1, h1.2⟩
    rw [if_pos hyes]
    cases hm : member_lookup db session_id user_id with
    | some mrow =>
      have hmy : ∃ m ∈ db.session_users, m.session_id = session_id ∧ m.user_id = user_id := by
        have h1 := List.find?_some hm
        have h2 := List.mem_of_find?_eq_some hm
        simp only [Bool.and_eq_true, beq_iff_eq] at h1
        exact ⟨mrow, h2, h1.1, h1.2⟩
      rw [if_pos hmy]
      simp [join_rpg_session, hs, hm]
    | none =>
      have hmn : ¬ ∃ m ∈ db.session_users, m.session_id = session_id ∧ m.user_id = user_id := by
        rintro ⟨m, hmem, h1, h2⟩
        have := List.find?_eq_none.mp hm m hmem
        simp [h1, h2] at this
      rw [if_neg hmn]
      refine ⟨?_, ?_, ?_, ?_, ?_, ?_, ?_⟩
      · exact ⟨py_or_str character_name ("Runner-" ++ str_last4 user_id),
          by simp [join_rpg_session, hs, hm]⟩
      · intro s hsmem heq
        simp only [join_rpg_session, hs, hm, update_last_active] at hsmem
        rcases List.mem_map.mp hsmem with ⟨t, _, ht⟩
        by_cases hts : t.session_id == session_id
        · rw [if_pos hts] at ht
          rw [← ht]
        · rw [if_neg hts] at ht
          rw [← ht] at heq
          exact absurd (beq_iff_eq.mpr heq) hts
      · simp [join_rpg_session, hs, hm, update_last_active]
      · simp [join_rpg_session, hs, hm, update_last_active]
      · simp [join_rpg_session, hs, hm, update_last_active]
      · simp [join_rpg_session, hs, hm, update_last_active]
      · simp [join_rpg_session, hs, hm]

theorem find?_cons_pos {α : Type} {p : α → Bool} {a : α} (t : List α) (h : p a = true) :
    List.find? p (a :: t) = some a := by
  simp [h]

theorem find?_cons_neg {α : Type} {p : α → Bool} {a : α} (t : List α) (h : p a = false) :
    List.find? p (a :: t) = List.find? p t := by
  simp [h]

theorem find?_map_upd (l : List SceneInfoRow) (sid : String) (row : SceneInfoRow)
    (f : SceneInfoRow → SceneInfoRow) (hf : ∀ s, (f s).session_id = s.session_id)
    (h : l.find? (fun s => s.session_id == sid) = some row) :
    (l.map (fun s => if s.session_id == sid then f s else s)).find?
      (fun s => s.session_id == sid) = some (f row) := by
  induction l with
  | nil => cases h
  | cons a t ih =>
    cases hp : (a.session_id == sid) with
    | true =>
      rw [@find?_cons_pos _ (fun s => s.session_id == sid) a t hp] at h
      injection h with h2
      subst h2
      simp only [List.map_cons, if_pos hp]
      exact @find?_cons_pos _ (fun s => s.session_id == sid) (f a) _
        (show ((f a).session_id == sid) = true by rw [hf a]; exact hp)
    | false =>
      rw [@find?_cons_neg _ (fun s => s.session_id == sid) a t hp] at h
      simp only [List.map_cons, if_neg (show ¬ ((a.session_id == sid) = true) by simp [hp])]
      rw [@find?_cons_neg _ (fun s => s.session_id == sid) a _ hp]
      exact ih h

/-- C6: the game-master scene command with text
`location: Downtown, goal: extract the fixer` sets the scene location to
Downtown and the goal to extract the fixer, leaves opposition and magical
conditions untouched, and increments the scene counter by exactly one. -/
theorem c6_scene_field_extraction (db : DB) (now : Nat) (session_id user_id : String)
    (row : SceneInfoRow)
    (hrole : member_role db session_id user_id = some ("gm"))
    (hrow : scene_row_lookup db session_id = some row) :
    (∃ entry, (process_scene_command db now session_id user_id
        ["location:", "Downtown,", "goal:", "extract", "the", "fixer"]).2 =
      .updated ("Scene updated") entry) ∧
    scene_row_lookup (process_scene_command db now session_id user_id
        ["location:", "Downtown,", "goal:", "extract", "the", "fixer"]).1 session_id =
      some { session_id := row.session_id, location := "Downtown"
             goal := "extract the fixer", opposition := row.opposition
             magical_conditions := row.magical_conditions
             current_scene_number := row.current_scene_number + 1
             last_updated := now } := by
  have hloc : extract_field ("location:") ("location: Downtown, goal: extract the fixer")
      = some ("Downtown") := rfl
  have hgoal : extract_field ("goal:") ("location: Downtown, goal: extract the fixer")
      = some ("extract the fixer") := rfl
  have hopp : extract_field ("opposition:") ("location: Downtown, goal: extract the fixer")
      = none := rfl
  have hmag : extract_magical ("location: Downtown, goal: extract the fixer") = none := rfl
  have hst : pyJoinSpace ["location:", "Downtown,", "goal:", "extract", "the", "fixer"]
      = "location: Downtown, goal: extract the fixer" := rfl
  have hbne : (("gm" : String) != "gm") = false := rfl
  have hemp : (("location: Downtown, goal: extract the fixer" : String) == "") = false := rfl
  constructor
  · simp only [process_scene_command, hrole, hbne, Bool.false_eq_true, if_false, hst, hemp,
      hrow, add_to_scene_log_eq]
    exact ⟨_, rfl⟩
  · simp only [process_scene_command, hrole, hbne, Bool.false_eq_true, if_false, hst, hemp,
      hrow, add_to_scene_log_eq, hloc, hgoal, hopp, hmag, Option.getD_some, Option.getD_none]
    unfold scene_row_lookup
    simp only [add_result_db_scene_info]
    rw [find?_map_upd db.scene_info session_id row
      (fun s => { session_id := s.session_id, location := "Downtown"
                  goal := "extract the fixer", opposition := s.opposition
                  magical_conditions := s.magical_conditions
                  current_scene_number := row.current_scene_number + 1
                  last_updated := now })
      (fun s => rfl) hrow]

/-- C9: an accepted non-empty scene command logs a header using the scene
number read before the update while storing that number plus one, so a
scene-state read immediately afterwards returns a number one greater than
the one in the freshly appended log entry. -/
theorem c9_scene_header_counter (db : DB) (now : Nat) (session_id user_id : String)
    (args : List String) (row : SceneInfoRow)
    (hrole : member_role db session_id user_id = some ("gm"))
    (hrow : scene_row_lookup db session_id = some row)
    (hne : (pyJoinSpace args == "") = false) :
    (process_scene_command db now session_id user_id args).2 =
      .updated ("Scene updated")
        { session_id := session_id
          log_id := next_log_id db session_id
          speaker := "SCENE"
          content := "**SCENE " ++ toString row.current_scene_number ++ "**\n" ++ pyJoinSpace args
          timestamp := now } ∧
    (scene_row_lookup (process_scene_command db now session_id user_id args).1 session_id).map
      (fun s => s.current_scene_number) = some (row.current_scene_number + 1) := by
  have hbne : (("gm" : String) != "gm") = false := rfl
  have hsc : (("SCENE" : String) == "") = false := rfl
  constructor
  · simp only [process_scene_command, hrole, hbne, Bool.false_eq_true, if_false, hne,
      hrow, add_to_scene_log_eq, add_entry, resolve_speaker, hsc]
  · simp only [process_scene_command, hrole, hbne, Bool.false_eq_true, if_false, hne,
      hrow, add_to_scene_log_eq]
    unfold scene_row_lookup
    simp only [add_result_db_scene_info]
    rw [find?_map_upd db.scene_info session_id row
      (fun s => { session_id := s.session_id
                  location := (extract_field ("location:") (pyJoinSpace args)).getD s.location
                  goal := (extract_field ("goal:") (pyJoinSpace args)).getD s.goal
                  opposition := (extract_field ("opposition:") (pyJoinSpace args)).getD s.opposition
                  magical_conditions := (extract_magical (pyJoinSpace args)).getD s.magical_conditions
                  current_scene_number := row.current_scene_number + 1
                  last_updated := now })
      (fun s => rfl) hrow]
    rfl

/-- Concrete database with one session, its game master and the default
scene row, used by the scene-command witnesses. -/
def wdb6 : DB :=
  { rpg_sessions := [⟨"s1", "Run", "u1", 0, 0, true, "shadowrunBarren", "\x7b\x7d"⟩]
    session_users := [⟨"s1", "u1", "gm", "Game Master", 0⟩]
    scene_logs := []
    scene_info := [⟨"s1", "Unknown location", "Awaiting mission briefing", "Unknown", "Normal", 1, 0⟩]
    entities := [] }

/-- C6 witness at a concrete one-session database. -/
theorem c6_scene_field_extraction_witness :
    (∃ entry, (process_scene_command wdb6 5 ("s1") ("u1")
        ["location:", "Downtown,", "goal:", "extract", "the", "fixer"]).2 =
      .updated ("Scene updated") entry) ∧
    scene_row_lookup (process_scene_command wdb6 5 ("s1") ("u1")
        ["location:", "Downtown,", "goal:", "extract", "the", "fixer"]).1 ("s1") =
      some { session_id := "s1", location := "Downtown", goal := "extract the fixer"
             opposition := "Unknown", magical_conditions := "Normal"
             current_scene_number := 2, last_updated := 5 } :=
  c6_scene_field_extraction wdb6 5 ("s1") ("u1")
    ⟨"s1", "Unknown location", "Awaiting mission briefing", "Unknown", "Normal", 1, 0⟩ rfl rfl

/-- C9 witness at a concrete one-session database. -/
theorem c9_scene_header_counter_witness :
    (process_scene_command wdb6 5 ("s1") ("u1") ["Dock", "raid"]).2 =
      .updated ("Scene updated")
        { session_id := "s1", log_id := 1, speaker := "SCENE"
          content := "**SCENE 1**\nDock raid", timestamp := 5 } ∧
    (scene_row_lookup (process_scene_command wdb6 5 ("s1") ("u1") ["Dock", "raid"]).1 ("s1")).map
      (fun s => s.current_scene_number) = some 2 :=
  c9_scene_header_counter wdb6 5 ("s1") ("u1") ["Dock", "raid"]
    ⟨"s1", "Unknown location", "Awaiting mission briefing", "Unknown", "Normal", 1, 0⟩ rfl rfl rfl

/-- C1: sequence numbers of the scene log. Sequentially, an append to a log
whose sequence numbers are exactly 1..n commits and is assigned n + 1 (1 on
an empty log). Concurrently, for every interleaving of two appends to the
same session, the final log is still gapless 1..m with no duplicate, every
appender that reports success has its number in the log (none is silently
dropped: the other outcome is the loud PRIMARY KEY or lock error), and two
successful appenders never receive the same number. -/
theorem c1_append_sequence_numbers (db : DB) (n : Nat) (sid : String) (a1 a2 : AppendArgs)
    (h1 : a1.session_id = sid) (h2 : a2.session_id = sid)
    (hC : Contig db sid n) (hN : (session_seqs db sid).Nodup) (sched : List Bool) :
    (add_to_scene_log db a1 = .ok (add_result_db db a1, add_entry db a1) ∧
      (add_entry db a1).log_id = n + 1) ∧
    (Contig (runSched a1 a2 sched db .start .start).1 sid
        (n + okCount (runSched a1 a2 sched db .start .start).2.1
           + okCount (runSched a1 a2 sched db .start .start).2.2) ∧
      (session_seqs (runSched a1 a2 sched db .start .start).1 sid).Nodup ∧
      (∀ s, (runSched a1 a2 sched db .start .start).2.1 = .doneOk s →
        s ∈ session_seqs (runSched a1 a2 sched db .start .start).1 sid) ∧
      (∀ s, (runSched a1 a2 sched db .start .start).2.2 = .doneOk s →
        s ∈ session_seqs (runSched a1 a2 sched db .start .start).1 sid) ∧
      (∀ s t, (runSched a1 a2 sched db .start .start).2.1 = .doneOk s →
        (runSched a1 a2 sched db .start .start).2.2 = .doneOk t → s ≠ t)) := by
  constructor
  · refine ⟨add_to_scene_log_eq db a1, ?_⟩
    show next_log_id db a1.session_id = n + 1
    rw [h1, next_log_id_eq_max_add_one]
    have hmax : obsVal (max_log_id db sid) = n := contig_max hC
    unfold max_log_id at hmax
    cases hl : session_seqs db sid with
    | nil =>
      rw [hl] at hmax
      simp only [obsVal] at hmax
      simp only [list_max, List.foldr_nil]
      omega
    | cons a t =>
      rw [hl] at hmax
      simp only [obsVal] at hmax
      omega
  · have hInv0 : Inv sid n db .start .start := by
      refine ⟨hC, hN, trivial, trivial, ?_⟩
      intro s t hs ht
      cases hs
    have hfin := runSched_preserves a1 a2 sid n h1 h2 sched db .start .start hInv0
    obtain ⟨hCf, hNf, hT1f, hT2f, hDf⟩ := hfin
    refine ⟨hCf, hNf, ?_, ?_, hDf⟩
    · intro s hs
      rw [hs] at hT1f
      exact hT1f
    · intro s hs
      rw [hs] at hT2f
      exact hT2f

/-- C1 witness: two concurrent appends to an empty session log under the
alternating schedule; the sequential conjunct assigns sequence number 1. -/
theorem c1_append_sequence_numbers_witness :
    (add_to_scene_log emptyDB { session_id := "s1", user_id := "u1", content := "hi", now := 3 }
      = .ok (add_result_db emptyDB
          { session_id := "s1", user_id := "u1", content := "hi", now := 3 },
        add_entry emptyDB { session_id := "s1", user_id := "u1", content := "hi", now := 3 }) ∧
      (add_entry emptyDB
        { session_id := "s1", user_id := "u1", content := "hi", now := 3 }).log_id = 0 + 1) :=
  (c1_append_sequence_numbers emptyDB 0 ("s1")
    { session_id := "s1", user_id := "u1", content := "hi", now := 3 }
    { session_id := "s1", user_id := "u2", content := "yo", now := 4 }
    rfl rfl (by intro k; simp [session_seqs, emptyDB]; omega) (by simp [session_seqs, emptyDB])
    [true, false, true, false]).1

theorem call_openai_api_failed (env : AiEnv) (prompt : String) (max_tokens : Nat)
    (hcache : env.cached = none)
    (hfail : env.api_key = none ∨ ∃ k, env.api_key = some k ∧
      (k = "your_openai_api_key_here" ∨ validate_openai_key k = false ∨
        run_attempts env.attempts 0 4 = none)) :
    call_openai_api env prompt max_tokens = simulate_ai_response env.clock prompt max_tokens := by
  unfold call_openai_api
  rcases hfail with h | ⟨k, hk, hcase⟩
  · simp only [hcache, h]
  · simp only [hcache, hk]
    rcases hcase with h | h | h
    · subst h
      rw [if_pos (by simp)]
    · rw [if_pos (by simp [h])]
    · by_cases hcond : (k == "your_openai_api_key_here" || !validate_openai_key k) = true
      · rw [if_pos hcond]
      · rw [if_neg hcond]
        simp only [h]

/-- AiEnv whose API call, were it ever reached, would fail with a
non-retryable 401. -/
def wenv3 : AiEnv :=
  { cached := none, api_key := some ("sk-aaaaaaaaaaaaaaaaaaaaaaaa")
    attempts := fun _ => .httpError 401 ("Unauthorized"), clock := "12:00:00" }

/-- Shape of every non-slash request to `rpg_command`: one of the parameter,
session or membership errors, or the TypeError of the AI call site turned
into the 500 handler response; in each case the database of the result is
the unchanged input database. -/
theorem rpg_command_ai_branch_type_error (db : DB) (env : AiEnv) (now : Nat)
    (stream : Nat → Nat) (entity_id session_id user_id raw_command : String) (streaming : Bool)
    (hslash : py_startswith ("/") (pyStrip raw_command) = false) :
    rpg_command db env now stream entity_id session_id user_id raw_command streaming
      = (db, .badRequest ("Missing required parameters: session_id, user_id, command")) ∨
    rpg_command db env now stream entity_id session_id user_id raw_command streaming
      = (db, .notFound ("Session not found or inactive")) ∨
    rpg_command db env now stream entity_id session_id user_id raw_command streaming
      = (db, .forbidden ("User not in session")) ∨
    ∃ m, rpg_command db env now stream entity_id session_id user_id raw_command streaming
      = (db, .endpointError m) := by
  have hbindS : py_kwargs_bind call_openai_api_streaming_params rpg_ai_call_kwargs = false := by
    decide
  have hbindN : py_kwargs_bind call_openai_api_params rpg_ai_call_kwargs = false := by
    decide
  cases hb : (session_id == "" || user_id == "" || (pyStrip raw_command == "")) with
  | true =>
    left
    simp [rpg_command, hb]
  | false =>
    cases hs : session_active_lookup db session_id with
    | none =>
      right; left
      simp [rpg_command, hb, hs]
    | some srow =>
      cases hm : member_lookup db session_id user_id with
      | none =>
        right; right; left
        simp [rpg_command, hb, hs, hm]
      | some murow =>
        right; right; right
        cases streaming with
        | true =>
          exact ⟨("call_openai_api_streaming() got an unexpected keyword argument \x27context\x27"),
            by simp [rpg_command, hb, hs, hm, hslash, hbindS]⟩
        | false =>
          exact ⟨("call_openai_api() got an unexpected keyword argument \x27context\x27"),
            by simp [rpg_command, hb, hs, hm, hslash, hbindN]⟩

/-- Concrete trace of the AI branch at a valid session and member: the call
site raises TypeError over the unexpected `context` keyword, the handler
answers with the error, and the database is untouched. -/
theorem rpg_command_hello_type_error :
    rpg_command wdb6 wenv3 9 (fun _ => 0) ("e1") ("s1") ("u1") ("hello") false =
      (wdb6, .endpointError
        ("call_openai_api() got an unexpected keyword argument \x27context\x27")) := by
  decide

/-- C3: when the AI completion call fails, no scene-log entry is appended
for the prompt, the caller receives the error, and no simulated or fallback
text is substituted into the log. In this code every request reaching the
AI branch fails before generation: both completion call sites pass a
`context` keyword that neither callee accepts, so Python raises TypeError
at the call site and the exception handler returns the error; on every
non-slash command the database, in particular the scene log, is unchanged,
the outcome is one of the structured errors, and it is never a success
payload. -/
theorem c3_generation_failure_no_append (db : DB) (env : AiEnv) (now : Nat)
    (stream : Nat → Nat) (entity_id session_id user_id raw_command : String) (streaming : Bool)
    (hslash : py_startswith ("/") (pyStrip raw_command) = false) :
    (rpg_command db env now stream entity_id session_id user_id raw_command streaming).1 = db ∧
    (rpg_command db env now stream entity_id session_id user_id raw_command streaming).1.scene_logs
      = db.scene_logs ∧
    ((∃ m, (rpg_command db env now stream entity_id session_id user_id raw_command streaming).2
        = .badRequest m) ∨
     (∃ m, (rpg_command db env now stream entity_id session_id user_id raw_command streaming).2
        = .notFound m) ∨
     (∃ m, (rpg_command db env now stream entity_id session_id user_id raw_command streaming).2
        = .forbidden m) ∨
     (∃ m, (rpg_command db env now stream entity_id session_id user_id raw_command streaming).2
        = .endpointError m)) ∧
    (∀ text usage entry,
      (rpg_command db env now stream entity_id session_id user_id raw_command streaming).2
        ≠ .ai text usage entry) := by
  rcases rpg_command_ai_branch_type_error db env now stream entity_id session_id user_id
      raw_command streaming hslash with h | h | h | ⟨m, h⟩
  · exact ⟨by rw [h], by rw [h], Or.inl ⟨_, by rw [h]⟩,
      by intro text usage entry hne; rw [h] at hne; cases hne⟩
  · exact ⟨by rw [h], by rw [h], Or.inr (Or.inl ⟨_, by rw [h]⟩),
      by intro text usage entry hne; rw [h] at hne; cases hne⟩
  · exact ⟨by rw [h], by rw [h], Or.inr (Or.inr (Or.inl ⟨_, by rw [h]⟩)),
      by intro text usage entry hne; rw [h] at hne; cases hne⟩
  · exact ⟨by rw [h], by rw [h], Or.inr (Or.inr (Or.inr ⟨m, by rw [h]⟩)),
      by intro text usage entry hne; rw [h] at hne; cases hne⟩

/-- C3 witness: the concrete AI command `hello` against the one-session
database and the failing environment leaves the database unchanged. -/
theorem c3_generation_failure_no_append_witness :
    (rpg_command wdb6 wenv3 9 (fun _ => 0) ("e1") ("s1") ("u1") ("hello") false).1 = wdb6 :=
  (c3_generation_failure_no_append wdb6 wenv3 9 (fun _ => 0) ("e1") ("s1") ("u1") ("hello")
    false rfl).1

/-- Entity-update recognizer for the stream events. -/
def is_entity_update_event : StreamEvent → Bool
  | .entity_update _ => true
  | _ => false

/-- Database with one entity freshly updated at tick 100. -/
def wdb7 : DB :=
  { emptyDB with entities :=
      [⟨"s1", "e1", "Ares Drone", "drone", "active", "", true, "u1", 90, 100, none⟩] }

/-- C7 counterexample: a consumer that has seen no entity update (last seen
timestamp 0) polls a session holding an entity updated at tick 100. The
claim requires exactly that entity to be emitted as an entity_update event;
the cycle emits none (the cutoff expression raises and the iteration ends
in an error event). -/
theorem c7_entity_feed_counterexample :
    ((rpg_stream_cycle wdb7 101 ("s1") 0).1.filter is_entity_update_event) = [] ∧
    spec_entity_updates wdb7 ("s1") 0 =
      [⟨"s1", "e1", "Ares Drone", "drone", "active", "", true, "u1", 90, 100, none⟩] ∧
    spec_entity_updates wdb7 ("s1") 0 ≠ [] := by
  refine ⟨rfl, rfl, by decide⟩

/-- C7 amended: on every poll cycle the publisher emits no entity_update
event at all: the cutoff expression `datetime.now() -
datetime.timedelta(seconds=5)` raises AttributeError because `datetime`
names the class, so the iteration always ends in an error event instead
(and even the written intent was a fixed five-second window, not a
consumer-relative cutoff). -/
theorem c7_entity_feed_amended (db : DB) (now : Nat) (session_id : String)
    (last_log_id : Nat) :
    ((rpg_stream_cycle db now session_id last_log_id).1.filter is_entity_update_event) = [] ∧
    StreamEvent.streamError ("type object datetime has no attribute timedelta")
      ∈ (rpg_stream_cycle db now session_id last_log_id).1 := by
  simp only [rpg_stream_cycle, entity_cutoff]
  constructor
  · rw [List.filter_append]
    have hl : ∀ (l : List SceneLogRow),
        (l.map StreamEvent.logEvent).filter is_entity_update_event = [] := by
      intro l
      induction l with
      | nil => rfl
      | cons a t ih => simp [is_entity_update_event, ih]
    rw [hl]
    rfl
  · exact List.mem_append_right _ (List.mem_singleton.mpr rfl)

end Wren
